import Mathlib

/-!
Verification of the Tufão HTTP server core (`src/httpserver.h`) against its
natural-language specification.

The repository ships only the public header `httpserver.h`: every method body
(listen, close, serverPort, the connection state machine driving requestReady,
the upgrade path) lives in a `.cpp` file that is absent from `src/`.  The
definitions below are therefore shallow embeddings modelled from the spec's
description of each component (Connection State Machine §4.1, Parser Adapter
§4.2, Dispatcher §4.3, Upgrade Coordinator §4.4, Listener §4.5, error taxonomy
§7), cross-checked against the behavioral documentation comments that the
header does contain.
-/

namespace Tufao

/-- Header lists are ordered multimaps of name/value pairs (spec §3). -/
abbrev Headers := List (String × String)

/-- ASCII lower-casing of one character code. -/
def lowerCode (n : Nat) : Nat :=
  if 65 ≤ n ∧ n ≤ 90 then n + 32 else n

/-- ASCII case-insensitive string comparison, used for header-name
lookup. -/
def eqCI (a : String) (b : String) : Bool :=
  a.data.map (fun c => lowerCode c.toNat)
    == b.data.map (fun c => lowerCode c.toNat)

/-- Case-insensitive header membership test: header names are
case-insensitive on lookup (spec §6, header contract); values are compared
verbatim. -/
def hasHeaderCI (hs : Headers) (name : String) (value : String) : Bool :=
  hs.any (fun p => eqCI p.fst name && p.snd == value)

/-- Modelled from the spec: the Request value object of §3 (the class
`HttpServerRequest` is only forward-declared in `httpserver.h`; its
definition is missing from `src/`).  `version` is the HTTP major.minor
pair; `body` is the finite sequence of byte chunks. -/
structure Request where
  method : String
  url : String
  version : Nat × Nat
  headers : Headers
  body : List (List Nat)
  deriving Repr, DecidableEq

/-- The empty/default Request: the value every field is reset to before the
object is reused for the next exchange on a keep-alive connection (spec §3
invariant). -/
def emptyRequest : Request :=
  { method := "", url := "", version := (0, 0), headers := [], body := [] }

/-- Modelled from the spec: what the external handler collaborator produces
for one exchange — a status code, response headers and body chunks
(`HttpServerResponse` is declared but not defined under `src/`). -/
structure HandlerOut where
  status : Nat
  headers : Headers
  body : List (List Nat)
  deriving Repr, DecidableEq

/-- Modelled from the spec: the keep-alive close-decision policy of §4.1.
HTTP/1.1 defaults to keep-alive unless request or response headers
explicitly request `Connection: close`; HTTP/1.0 defaults to close unless
the request explicitly asks `Connection: keep-alive`; any other version
closes.  Returns `true` when the connection stays alive. -/
def keepAliveDecision (version : Nat × Nat) (reqHs : Headers)
    (respHs : Headers) : Bool :=
  if version = (1, 1) then
    !(hasHeaderCI reqHs "Connection" "close"
      || hasHeaderCI respHs "Connection" "close")
  else if version = (1, 0) then
    hasHeaderCI reqHs "Connection" "keep-alive"
  else
    false

/-- Modelled from the spec: wire emission of the close decision (§6):
whenever the decision resolves to close, a `Connection: close` header is
appended to the response headers before serialization. -/
def finalizeRespHeaders (keep : Bool) (respHs : Headers) : Headers :=
  if keep then respHs else respHs ++ [("Connection", "close")]

/-- A serialized response as observed by the client: status line data,
finalized headers, body chunks. -/
structure WireResponse where
  status : Nat
  headers : Headers
  body : List (List Nat)
  deriving Repr, DecidableEq

/-- Build the wire response for one exchange from the handler output and the
computed keep-alive decision. -/
def mkWire (keep : Bool) (out : HandlerOut) : WireResponse :=
  { status := out.status
    headers := finalizeRespHeaders keep out.headers
    body := out.body }

/-!  ## Listener (spec §4.5, `httpserver.h` lines 117–132, 156–161)  -/

/-- Modelled from the spec: the Listener state behind `HttpServer::listen`,
`isListening`, `serverPort` and `close` (their bodies are missing from
`src/`; contract from §4.5 and the header's documentation comments). -/
structure Listener where
  listening : Bool
  boundPort : Nat
  deriving Repr, DecidableEq

/-- A freshly constructed server: not listening, no bound port. -/
def initListener : Listener := { listening := false, boundPort := 0 }

/-- Modelled from the spec: `HttpServer::listen(address, port)`.  The
operating system's bind outcome is an external collaborator, passed as
`env`: `env.fst` is whether the bind succeeded, `env.snd` the automatically
chosen port used when `port = 0` (header: "If port is 0, a port is chosen
automatically"; "return true on success").  On failure the state is
unchanged. -/
def listen (l : Listener) (port : Nat) (env : Bool × Nat) :
    Bool × Listener :=
  if env.fst then
    (true, { listening := true
             boundPort := if port = 0 then env.snd else port })
  else
    (false, l)

/-- `HttpServer::isListening`: true iff the server is listening for incoming
connections (header lines 120–123). -/
def isListening (l : Listener) : Bool := l.listening

/-- `HttpServer::serverPort`: "Returns the server's port if the server is
listening; otherwise returns 0" (header lines 125–132). -/
def serverPort (l : Listener) : Nat :=
  if l.listening then l.boundPort else 0

/-- `HttpServer::close`: "Closes the server.  The server will no longer
listen for incoming connections" (header lines 156–161). -/
def close (_l : Listener) : Listener := { listening := false, boundPort := 0 }

/-!  ## Response terminal framing (spec §3 Response invariants)  -/

/-- Response lifecycle states (spec §3): `UNSENT`, `HEAD_SENT`, `ENDED`. -/
inductive RespState
  | UNSENT
  | HEAD_SENT
  | ENDED
  deriving Repr, DecidableEq

/-- A wire frame written by the Response object: the head (status line plus
headers) or a body/terminal frame. -/
inductive Frame
  | head (status : Nat) (hs : Headers)
  | bodyChunk (bytes : List Nat)
  | terminal
  deriving Repr, DecidableEq

/-- Modelled from the spec: the mutable Response object of §3
(`HttpServerResponse` is declared in `httpserverresponse.h`, which is
missing from `src/`).  `wire` is everything written to the transport so
far, in order. -/
structure ResponseObj where
  status : Nat
  headers : Headers
  state : RespState
  wire : List Frame
  deriving Repr, DecidableEq

/-- Modelled from the spec: the Response "end" operation.  A Response that
reaches ENDED must have sent exactly one head (sent now if still UNSENT)
and its terminal framing (§3 invariant); once ENDED, a further call has no
wire effect (§8 idempotence). -/
def endResponse (r : ResponseObj) : ResponseObj :=
  match r.state with
  | RespState.ENDED => r
  | RespState.UNSENT =>
      { r with state := RespState.ENDED
               wire := r.wire ++ [Frame.head r.status r.headers,
                                  Frame.terminal] }
  | RespState.HEAD_SENT =>
      { r with state := RespState.ENDED
               wire := r.wire ++ [Frame.terminal] }

/-!  ## Connection State Machine (spec §4.1–§4.4, §7)

The machine is modelled at the Parser Adapter boundary: the inbound byte
stream has already been cut by the parser into a list of `InEvent`s (a
completed plain request, a completed request head carrying an `Upgrade`
header together with the trailing head bytes, or a parse error).  The
machine folds over them and emits a trace of externally observable
events. -/

/-- An event produced by the Parser Adapter for the connection. -/
inductive InEvent
  | good (r : Request)
  | upgradeReq (r : Request) (head : List Nat)
  | malformed
  deriving Repr, DecidableEq

/-- Externally observable events of one connection's lifetime. -/
inductive TraceEv
  /-- The Dispatcher invoked the external handler (the `requestReady`
  signal) with this request. -/
  | dispatched (r : Request)
  /-- A full response was serialized to the client. -/
  | responded (w : WireResponse)
  /-- A best-effort status-only response (no handler involved). -/
  | statusOnly (code : Nat)
  /-- The upgrade handler was invoked with the transport and these head
  bytes. -/
  | upgraded (head : List Nat)
  /-- The Request object of the upgrade exchange was deleted. -/
  | requestDeleted
  /-- The Connection object was destroyed while the socket stayed open
  (ownership transferred to the upgrade handler). -/
  | connDestroyedSocketOpen
  /-- The transport socket was closed by the server. -/
  | socketClosed
  deriving Repr, DecidableEq

/-- Whether a trace event is a dispatch to the request handler. -/
def TraceEv.isDispatch : TraceEv → Bool
  | TraceEv.dispatched _ => true
  | _ => false

/-- Modelled from the spec: the MalformedRequest policy of §7 — emit a
best-effort 4xx status if no response bytes have been written yet, then
force-close the connection. -/
def malformedPolicy (bytesWritten : Bool) : List TraceEv :=
  (if bytesWritten then [] else [TraceEv.statusOnly 400])
    ++ [TraceEv.socketClosed]

/-- Modelled from the spec: the accepted-upgrade handoff of §4.4 and the
header notes at `httpserver.h` lines 194–201 — the transport and head
bytes are handed to the external handler, the Request object is deleted
after the handler returns, and the Connection object is destroyed without
closing the socket. -/
def upgradeHandoff (head : List Nat) : List TraceEv :=
  [TraceEv.upgraded head, TraceEv.requestDeleted,
   TraceEv.connDestroyedSocketOpen]

/-- Modelled from the spec: the Connection State Machine of §4.1 driving
one keep-alive connection (the machinery behind `HttpServer::onRequestReady`
and `HttpServer::onUpgrade`, whose bodies are missing from `src/`).
`handler` is the external request handler collaborator; `acc` is the
Upgrade Coordinator's `tryUpgrade` outcome (`true` iff some registered
external upgrade handler accepts).  Each completed plain request is
dispatched exactly once and answered in order; the connection continues
only while the keep-alive decision holds; a parse error or an upgrade head
terminates HTTP processing on the connection. -/
def runConn (handler : Request → HandlerOut)
    (acc : Request → List Nat → Bool) : List InEvent → List TraceEv
  | [] => []
  | InEvent.malformed :: _ => malformedPolicy false
  | InEvent.upgradeReq r head :: _ =>
      if acc r head then upgradeHandoff head else [TraceEv.socketClosed]
  | InEvent.good r :: rest =>
      let out := handler r
      let keep := keepAliveDecision r.version r.headers out.headers
      TraceEv.dispatched r :: TraceEv.responded (mkWire keep out) ::
        (if keep then runConn handler acc rest else [TraceEv.socketClosed])

/-- The requests dispatched to the handler along a trace, in order. -/
def dispatchedReqs : List TraceEv → List Request
  | [] => []
  | TraceEv.dispatched r :: rest => r :: dispatchedReqs rest
  | _ :: rest => dispatchedReqs rest

/-- The full responses received by the client along a trace, in order. -/
def respondedList : List TraceEv → List WireResponse
  | [] => []
  | TraceEv.responded w :: rest => w :: respondedList rest
  | _ :: rest => respondedList rest

/-!  ## Object reuse across keep-alive exchanges (spec §3, §4.1)

A second, allocation-aware view of the Connection: the Request/Response
object pair is tracked by allocation identity (`reqId`, `respId`, and an
allocation counter that a reallocation would bump), so that the reuse
discipline — never reallocate, clear all fields in place — is provable. -/

/-- The default Response object bound to a connection before an exchange. -/
def defaultResponse : ResponseObj :=
  { status := 200, headers := [], state := RespState.UNSENT, wire := [] }

/-- Modelled from the spec: the Connection's owned object pair (§3
Connection) with allocation identities.  `allocCounter` is the next fresh
allocation id; reallocating either object would consume it. -/
structure Conn where
  reqId : Nat
  respId : Nat
  allocCounter : Nat
  req : Request
  resp : ResponseObj
  deriving Repr, DecidableEq

/-- A freshly accepted connection: the Request/Response pair is allocated
once, ids 0 and 1. -/
def newConn : Conn :=
  { reqId := 0, respId := 1, allocCounter := 2
    req := emptyRequest, resp := defaultResponse }

/-- The parser populates the existing Request object in place. -/
def parseInto (c : Conn) (r : Request) : Conn := { c with req := r }

/-- The dispatcher runs the handler and the existing Response object ends
with the handler's output written. -/
def dispatchExchange (handler : Request → HandlerOut) (c : Conn) : Conn :=
  let out := handler c.req
  { c with resp :=
      endResponse { status := out.status, headers := out.headers
                    state := RespState.UNSENT
                    wire := (out.body.map Frame.bodyChunk) } }

/-- Modelled from the spec: the in-place reset of §4.1 — all fields of the
Request and Response objects are cleared to empty/default values; the
objects themselves (their allocation ids) are untouched. -/
def resetInPlace (c : Conn) : Conn :=
  { c with req := emptyRequest, resp := defaultResponse }

/-- One keep-alive exchange followed by the reset that precedes the next
parse: parse into the reused Request, dispatch, clear in place. -/
def keepAliveStep (handler : Request → HandlerOut) (c : Conn)
    (r : Request) : Conn :=
  resetInPlace (dispatchExchange handler (parseInto c r))

/-- A run of successive keep-alive exchanges over one connection. -/
def runKeepAlive (handler : Request → HandlerOut) (c : Conn)
    (reqs : List Request) : Conn :=
  reqs.foldl (keepAliveStep handler) c

/-!  ## Concrete sample data used by the witnesses  -/

/-- A plain HTTP/1.1 GET request with no `Connection` header. -/
def sampleReq : Request :=
  { method := "GET", url := "/index.html", version := (1, 1)
    headers := [("Host", "example.org")], body := [] }

/-- A second plain HTTP/1.1 request, distinct from `sampleReq`. -/
def sampleReq2 : Request :=
  { method := "POST", url := "/submit", version := (1, 1)
    headers := [], body := [[104, 105]] }

/-- An HTTP/1.0 request without a `Connection: keep-alive` header. -/
def sampleReq10 : Request :=
  { method := "GET", url := "/", version := (1, 0)
    headers := [], body := [] }

/-- A request carrying an `Upgrade` header, as the parser reports it. -/
def sampleUpgradeReq : Request :=
  { method := "GET", url := "/chat", version := (1, 1)
    headers := [("Upgrade", "websocket")], body := [] }

/-- A fixed external handler collaborator used by the witnesses. -/
def okHandler : Request → HandlerOut :=
  fun _ => { status := 200
             headers := [("Content-Type", "text/plain")]
             body := [[104, 105]] }

/-- An Upgrade Coordinator with no registered external handler: it accepts
nothing. -/
def noUpgradeHandler : Request → List Nat → Bool := fun _ _ => false

/-- An Upgrade Coordinator with a registered handler that accepts every
upgrade request. -/
def acceptAllUpgrades : Request → List Nat → Bool := fun _ _ => true

end Tufao

namespace Tufao

/-- Claim C8: the Listener contract (spec §4.5): `listen` returns a boolean
that is true exactly when the bind succeeded; after a successful `listen`
the server is listening; a failed `listen` leaves the listening state as it
was; and after `close` the server no longer listens for incoming
connections. -/
theorem listener_contract (l : Listener) (port : Nat) (env : Bool × Nat) :
    (listen l port env).fst = env.fst
    ∧ isListening (listen l port env).snd = (env.fst || isListening l)
    ∧ isListening (close l) = false := by
  refine ⟨?_, ?_, rfl⟩
  · unfold listen
    by_cases h : env.fst <;> simp [h]
  · unfold listen isListening
    by_cases h : env.fst <;> simp [h]

/-- Claim C9: `serverPort` returns the bound port exactly when the server is
listening and 0 otherwise: 0 on a fresh server, 0 after `close`, 0 whenever
`isListening` is false, and after a successful `listen` it reports the
requested port (or the automatically chosen one when the requested port was
0). -/
theorem serverPort_spec (l : Listener) (port : Nat) (env : Bool × Nat) :
    serverPort initListener = 0
    ∧ serverPort (close l) = 0
    ∧ (isListening l = false → serverPort l = 0)
    ∧ (env.fst = true →
        isListening (listen l port env).snd = true
        ∧ serverPort (listen l port env).snd
            = (if port = 0 then env.snd else port)) := by
  refine ⟨rfl, rfl, ?_, ?_⟩
  · intro h
    unfold serverPort
    unfold isListening at h
    simp [h]
  · intro h
    unfold listen isListening serverPort
    simp [h]

/-- Witness for C9: concrete evaluation at a listener that is not listening,
requested port 0 and an environment that grants port 8080. -/
theorem serverPort_spec_witness :
    Tufao.serverPort Tufao.initListener = 0
    ∧ Tufao.serverPort (Tufao.close Tufao.initListener) = 0
    ∧ (Tufao.isListening Tufao.initListener = false →
        Tufao.serverPort Tufao.initListener = 0)
    ∧ ((true, 8080).fst = true →
        Tufao.isListening
            (Tufao.listen Tufao.initListener 0 (true, 8080)).snd = true
        ∧ Tufao.serverPort (Tufao.listen Tufao.initListener 0 (true, 8080)).snd
            = (if (0 : Nat) = 0 then 8080 else 0)) :=
  serverPort_spec initListener 0 (true, 8080)

/-- Claim C1: for every sequence of N pipelined requests sent back-to-back
on one keep-alive connection (every exchange's keep-alive decision holds),
the handler is dispatched exactly N times in send order, and the client
receives exactly N responses in that same order, each being the handler's
output for the corresponding request. -/
theorem pipelined_in_order (handler : Request → HandlerOut)
    (acc : Request → List Nat → Bool) (reqs : List Request)
    (hka : ∀ r ∈ reqs,
      keepAliveDecision r.version r.headers (handler r).headers = true) :
    dispatchedReqs (runConn handler acc (reqs.map InEvent.good)) = reqs
    ∧ respondedList (runConn handler acc (reqs.map InEvent.good))
        = reqs.map (fun r => mkWire true (handler r)) := by
  induction reqs with
  | nil => exact ⟨rfl, rfl⟩
  | cons r rest ih =>
      have hr : keepAliveDecision r.version r.headers (handler r).headers
          = true := hka r (by simp)
      obtain ⟨ih1, ih2⟩ := ih (fun x hx => hka x (by simp [hx]))
      constructor
      · simp [runConn, hr, dispatchedReqs, respondedList, ih1]
      · simp [runConn, hr, dispatchedReqs, respondedList, ih2]

/-- Witness for C1: two concrete pipelined HTTP/1.1 requests are dispatched
in order and answered in order. -/
theorem pipelined_in_order_witness :
    (∀ r ∈ [sampleReq, sampleReq2],
      keepAliveDecision r.version r.headers (okHandler r).headers = true)
    ∧ dispatchedReqs
        (runConn okHandler noUpgradeHandler
          ([sampleReq, sampleReq2].map InEvent.good)) = [sampleReq, sampleReq2]
    ∧ respondedList
        (runConn okHandler noUpgradeHandler
          ([sampleReq, sampleReq2].map InEvent.good))
        = [sampleReq, sampleReq2].map (fun r => mkWire true (okHandler r)) :=
  ⟨by decide,
   (pipelined_in_order okHandler noUpgradeHandler [sampleReq, sampleReq2]
      (by decide)).left,
   (pipelined_in_order okHandler noUpgradeHandler [sampleReq, sampleReq2]
      (by decide)).right⟩

/-- Claim C2: when a request carries an `Upgrade` header and no registered
upgrade handler accepts it, the connection is closed (the base behavior)
and the request is never handled as an ordinary HTTP exchange: no dispatch
to the handler and no ordinary response is produced. -/
theorem unsupported_upgrade_closes (handler : Request → HandlerOut)
    (acc : Request → List Nat → Bool) (r : Request) (head : List Nat)
    (rest : List InEvent) (hacc : acc r head = false) :
    runConn handler acc (InEvent.upgradeReq r head :: rest)
        = [TraceEv.socketClosed]
    ∧ (∀ r', TraceEv.dispatched r'
        ∉ runConn handler acc (InEvent.upgradeReq r head :: rest))
    ∧ (∀ w, TraceEv.responded w
        ∉ runConn handler acc (InEvent.upgradeReq r head :: rest)) := by
  have h1 : runConn handler acc (InEvent.upgradeReq r head :: rest)
      = [TraceEv.socketClosed] := by
    simp [runConn, hacc]
  refine ⟨h1, ?_, ?_⟩
  · intro r'
    rw [h1]
    simp
  · intro w
    rw [h1]
    simp

/-- Witness for C2: a concrete `Upgrade: websocket` request with no
registered handler closes the socket and is never dispatched. -/
theorem unsupported_upgrade_closes_witness :
    noUpgradeHandler sampleUpgradeReq [13, 10] = false
    ∧ runConn okHandler noUpgradeHandler
        (InEvent.upgradeReq sampleUpgradeReq [13, 10] :: [])
        = [TraceEv.socketClosed] :=
  ⟨by decide,
   (unsupported_upgrade_closes okHandler noUpgradeHandler sampleUpgradeReq
      [13, 10] [] (by decide)).left⟩

/-- Claim C3: along every keep-alive run, the Request and Response objects
are never reallocated — the allocation identities and the allocation
counter of the connection are untouched — and after each exchange all
fields of the pair are reset to their empty/default values before the next
request is parsed into them. -/
theorem keepalive_objects_reused (handler : Request → HandlerOut)
    (c : Conn) (reqs : List Request) (r : Request) :
    (runKeepAlive handler c reqs).reqId = c.reqId
    ∧ (runKeepAlive handler c reqs).respId = c.respId
    ∧ (runKeepAlive handler c reqs).allocCounter = c.allocCounter
    ∧ (keepAliveStep handler c r).req = emptyRequest
    ∧ (keepAliveStep handler c r).resp = defaultResponse := by
  refine ⟨?_, ?_, ?_, rfl, rfl⟩ <;>
  · induction reqs generalizing c with
    | nil => rfl
    | cons q qs ih =>
        have h := ih (keepAliveStep handler c q)
        simpa [runKeepAlive, List.foldl, keepAliveStep, resetInPlace,
               dispatchExchange, parseInto] using h

/-- Claim C4: when an upgrade request is accepted, the transport and the
head bytes are handed to the upgrade handler, the Connection object is
destroyed without the socket being closed, and no request dispatch ever
happens on that connection afterwards. -/
theorem accepted_upgrade_handoff (handler : Request → HandlerOut)
    (acc : Request → List Nat → Bool) (r : Request) (head : List Nat)
    (rest : List InEvent) (hacc : acc r head = true) :
    runConn handler acc (InEvent.upgradeReq r head :: rest)
        = [TraceEv.upgraded head, TraceEv.requestDeleted,
           TraceEv.connDestroyedSocketOpen]
    ∧ TraceEv.socketClosed
        ∉ runConn handler acc (InEvent.upgradeReq r head :: rest)
    ∧ (∀ r', TraceEv.dispatched r'
        ∉ runConn handler acc (InEvent.upgradeReq r head :: rest)) := by
  have h1 : runConn handler acc (InEvent.upgradeReq r head :: rest)
      = [TraceEv.upgraded head, TraceEv.requestDeleted,
         TraceEv.connDestroyedSocketOpen] := by
    simp [runConn, hacc, upgradeHandoff]
  refine ⟨h1, ?_, ?_⟩
  · rw [h1]
    simp
  · intro r'
    rw [h1]
    simp

/-- Witness for C4: a concrete accepted upgrade hands over the head bytes
and tears the Connection down with the socket left open. -/
theorem accepted_upgrade_handoff_witness :
    acceptAllUpgrades sampleUpgradeReq [71, 72] = true
    ∧ runConn okHandler acceptAllUpgrades
        (InEvent.upgradeReq sampleUpgradeReq [71, 72] :: [])
        = [TraceEv.upgraded [71, 72], TraceEv.requestDeleted,
           TraceEv.connDestroyedSocketOpen] :=
  ⟨by decide,
   (accepted_upgrade_handoff okHandler acceptAllUpgrades sampleUpgradeReq
      [71, 72] [] (by decide)).left⟩

/-- Claim C5: on a MalformedRequest parse error the server emits a
best-effort 4xx status exactly when no response bytes have been written
yet, then force-closes the connection, and the request is never dispatched
to the handler. -/
theorem malformed_never_dispatched (handler : Request → HandlerOut)
    (acc : Request → List Nat → Bool) (rest : List InEvent) :
    runConn handler acc (InEvent.malformed :: rest) = malformedPolicy false
    ∧ malformedPolicy false = [TraceEv.statusOnly 400, TraceEv.socketClosed]
    ∧ malformedPolicy true = [TraceEv.socketClosed]
    ∧ (∀ r, TraceEv.dispatched r
        ∉ runConn handler acc (InEvent.malformed :: rest)) := by
  refine ⟨rfl, rfl, rfl, ?_⟩
  intro r
  show TraceEv.dispatched r ∉ malformedPolicy false
  simp [malformedPolicy]

/-- Witness for C5: the malformed-request policy evaluated on a concrete
trailing stream. -/
theorem malformed_never_dispatched_witness :
    runConn okHandler noUpgradeHandler
        (InEvent.malformed :: [InEvent.good sampleReq])
        = malformedPolicy false
    ∧ TraceEv.dispatched sampleReq
        ∉ runConn okHandler noUpgradeHandler
            (InEvent.malformed :: [InEvent.good sampleReq]) :=
  ⟨(malformed_never_dispatched okHandler noUpgradeHandler
      [InEvent.good sampleReq]).left,
   (malformed_never_dispatched okHandler noUpgradeHandler
      [InEvent.good sampleReq]).right.right.right sampleReq⟩

/-- Claim C6: the keep-alive decision — HTTP/1.1 keeps the connection alive
exactly when neither request nor response headers carry
`Connection: close`; HTTP/1.0 keeps it alive exactly when the request
carries `Connection: keep-alive`; and whenever the decision resolves to
close, the serialized response carries a `Connection: close` header and the
machine closes the transport after responding. -/
theorem close_decision_policy (reqHs respHs : Headers) (out : HandlerOut)
    (handler : Request → HandlerOut) (acc : Request → List Nat → Bool)
    (r : Request)
    (hclose : keepAliveDecision r.version r.headers (handler r).headers
        = false) :
    keepAliveDecision (1, 1) reqHs respHs
        = (!(hasHeaderCI reqHs "Connection" "close"
             || hasHeaderCI respHs "Connection" "close"))
    ∧ keepAliveDecision (1, 0) reqHs respHs
        = hasHeaderCI reqHs "Connection" "keep-alive"
    ∧ hasHeaderCI (mkWire false out).headers "Connection" "close" = true
    ∧ (mkWire true out).headers = out.headers
    ∧ runConn handler acc [InEvent.good r]
        = [TraceEv.dispatched r,
           TraceEv.responded (mkWire false (handler r)),
           TraceEv.socketClosed] := by
  refine ⟨rfl, rfl, ?_, rfl, ?_⟩
  · simp [mkWire, finalizeRespHeaders, hasHeaderCI]
    exact Or.inr (by decide)
  · simp [runConn, hclose]

/-- Witness for C6: a concrete HTTP/1.0 request without
`Connection: keep-alive` resolves to close, the response carries
`Connection: close`, and the transport is closed after the response. -/
theorem close_decision_policy_witness :
    keepAliveDecision sampleReq10.version sampleReq10.headers
        (okHandler sampleReq10).headers = false
    ∧ hasHeaderCI (mkWire false (okHandler sampleReq10)).headers
        "Connection" "close" = true
    ∧ runConn okHandler noUpgradeHandler [InEvent.good sampleReq10]
        = [TraceEv.dispatched sampleReq10,
           TraceEv.responded (mkWire false (okHandler sampleReq10)),
           TraceEv.socketClosed] :=
  ⟨by decide,
   (close_decision_policy [] [] (okHandler sampleReq10) okHandler
      noUpgradeHandler sampleReq10 (by decide)).right.right.left,
   (close_decision_policy [] [] (okHandler sampleReq10) okHandler
      noUpgradeHandler sampleReq10
      (by decide)).right.right.right.right⟩

/-- Claim C7: ending a Response is idempotent — once a Response has reached
ENDED, a further call to the end operation changes nothing, and in
particular writes no duplicate terminal framing to the wire. -/
theorem end_idempotent (r : ResponseObj) (hr : r.state = RespState.ENDED) :
    endResponse r = r
    ∧ (endResponse r).wire = r.wire
    ∧ (∀ s : ResponseObj, endResponse (endResponse s) = endResponse s) := by
  have h1 : endResponse r = r := by
    unfold endResponse
    rw [hr]
  refine ⟨h1, by rw [h1], ?_⟩
  intro s
  rcases s with ⟨st, hs, state, w⟩
  cases state <;> simp [endResponse]

/-- Witness for C7: a concrete ENDED response is unchanged by a second end
call. -/
theorem end_idempotent_witness :
    Tufao.endResponse
        { status := 200, headers := [], state := RespState.ENDED
          wire := [Frame.terminal] }
      = { status := 200, headers := [], state := RespState.ENDED
          wire := [Frame.terminal] } :=
  (end_idempotent
      { status := 200, headers := [], state := RespState.ENDED
        wire := [Frame.terminal] } rfl).left

/-- Claim C10: on the accepted-upgrade path the Request object is deleted
right after the upgrade handler is invoked — the deletion follows the
handler call in the trace — and, unlike the keep-alive path, the request is
never dispatched or reused afterwards. -/
theorem upgrade_request_deleted (handler : Request → HandlerOut)
    (acc : Request → List Nat → Bool) (r : Request) (head : List Nat)
    (rest : List InEvent) (hacc : acc r head = true) :
    (runConn handler acc (InEvent.upgradeReq r head :: rest))[0]?
        = some (TraceEv.upgraded head)
    ∧ (runConn handler acc (InEvent.upgradeReq r head :: rest))[1]?
        = some TraceEv.requestDeleted
    ∧ dispatchedReqs (runConn handler acc (InEvent.upgradeReq r head :: rest))
        = [] := by
  have h1 : runConn handler acc (InEvent.upgradeReq r head :: rest)
      = upgradeHandoff head := by
    simp [runConn, hacc]
  rw [h1]
  exact ⟨rfl, rfl, rfl⟩

/-- Witness for C10: on a concrete accepted upgrade, the Request object is
deleted immediately after the handler call and nothing is ever dispatched
on that connection. -/
theorem upgrade_request_deleted_witness :
    (runConn okHandler acceptAllUpgrades
        (InEvent.upgradeReq sampleUpgradeReq [1, 2, 3] :: []))[1]?
        = some TraceEv.requestDeleted
    ∧ dispatchedReqs (runConn okHandler acceptAllUpgrades
        (InEvent.upgradeReq sampleUpgradeReq [1, 2, 3] :: [])) = [] :=
  ⟨(upgrade_request_deleted okHandler acceptAllUpgrades sampleUpgradeReq
      [1, 2, 3] [] (by decide)).right.left,
   (upgrade_request_deleted okHandler acceptAllUpgrades sampleUpgradeReq
      [1, 2, 3] [] (by decide)).right.right⟩

end Tufao
